import Mathlib

/-!
A verification development for the Horizon Europe coordinator finder
(src/find_coordinator.py).  The core pipeline of find_coordinators is
embedded shallowly: the two pandas data frames become tables whose schema
is a set of column-presence flags and whose cells are Option String
(none models a null/NaN cell); the sklearn TfidfVectorizer and
cosine_similarity calls are modelled by explicit term counting, an
inverse-document-frequency function and a square-root function taken as
parameters (their real values are irrational, and no property below
depends on them); numpy argsort is modelled as the sort of the index
range by ascending score with ties by ascending index, which is the
stable sort numpy performs on small arrays.  File loading, the download
step and printing are out of scope, as is the delimiter-guessing re-read
that can only trigger on a single-column frame.
-/

set_option maxRecDepth 8000

namespace CoordinatorFinder

/-- A table cell; none models a pandas null (NaN) entry. -/
abbrev Cell := Option String

/-- One row of the projects table (project.csv).  Fields the code reads. -/
structure ProjRow where
  projectID : Cell := none
  rowId : Cell := none
  title : Cell := none
  acronym : Cell := none
  objective : Cell := none
  topics : Cell := none
  startDate : Cell := none
  endDate : Cell := none
deriving DecidableEq

/-- The projects table: which columns exist in the schema, plus the rows.
    A false flag means the column is entirely absent from the frame. -/
structure ProjTable where
  hasTitle : Bool := false
  hasObjective : Bool := false
  hasTopics : Bool := false
  hasProjectID : Bool := false
  hasId : Bool := false
  hasAcronym : Bool := false
  hasStartDate : Bool := false
  hasEndDate : Bool := false
  rows : List ProjRow := []
deriving DecidableEq

/-- One row of the organizations table (organization.csv). -/
structure OrgRow where
  projectID : Cell := none
  role : Cell := none
  orgName : Cell := none
  shortName : Cell := none
  country : Cell := none
  city : Cell := none
deriving DecidableEq

/-- The organizations table with its column-presence flags. -/
structure OrgTable where
  hasProjectID : Bool := false
  hasRole : Bool := false
  hasName : Bool := false
  hasShortName : Bool := false
  hasCountry : Bool := false
  hasCity : Bool := false
  rows : List OrgRow := []
deriving DecidableEq

/-- pandas Series.get applied to a row: the cell when the column exists
    (even when the cell itself is null), the default otherwise. -/
def cellGet (has : Bool) (c : Cell) (dflt : String) : Cell :=
  if has then c else some dflt

/-- pandas equality comparison of two cells: a null compares unequal to
    everything, including another null. -/
def cellEq : Cell → Cell → Bool
  | some a, some b => a == b
  | _, _ => false

/-- fillna of one cell: null becomes the empty string. -/
def fillna (c : Cell) : String := c.getD ""

/-- The text_data list built at lines 78-81 of find_coordinator.py,
    viewed row-wise: the values of whichever of title, objective, topics
    exist in the schema, in that fixed order, nulls as empty strings. -/
def textData (t : ProjTable) (r : ProjRow) : List String :=
  (if t.hasTitle then [fillna r.title] else []) ++
    (if t.hasObjective then [fillna r.objective] else []) ++
      (if t.hasTopics then [fillna r.topics] else [])

/-- combined_text of one row, as built at lines 87-89: the first present
    column, then repeated += of a single space and the next column. -/
def combinedText (t : ProjTable) (r : ProjRow) : String :=
  match textData t r with
  | [] => ""
  | h :: rest => rest.foldl (fun acc c => acc ++ " " ++ c) h

/-- Modelled from the spec and the sklearn default token pattern: a token
    character is a word character (alphanumeric or underscore). -/
def isTokenChar (c : Char) : Bool := c.isAlphanum || c == '_'

/-- Maximal runs of token characters in a character list; cur accumulates
    the current run in reverse. -/
def tokenRuns : List Char → List Char → List (List Char)
  | cur, [] => if cur = [] then [] else [cur.reverse]
  | cur, c :: cs =>
    if isTokenChar c then tokenRuns (c :: cur) cs
    else if cur = [] then tokenRuns [] cs
    else cur.reverse :: tokenRuns [] cs

/-- Character-wise lower casing, modelling str.lower of Python. -/
def lowerStr (s : String) : String := String.mk (s.data.map Char.toLower)

/-- The fixed English stop-word list the vectorizer is created with
    (stop_words is the string english).  Abridged to common entries of
    the frozen sklearn list; no theorem below depends on its contents. -/
def englishStopWords : List String :=
  ["about", "after", "all", "also", "an", "and", "any", "are", "as", "at",
   "be", "because", "been", "before", "being", "between", "both", "but", "by",
   "can", "could", "did", "do", "does", "during", "each", "for", "from",
   "further", "had", "has", "have", "having", "he", "her", "here", "his",
   "how", "if", "in", "into", "is", "it", "its", "itself", "more", "most",
   "no", "nor", "not", "now", "of", "off", "on", "once", "only", "or",
   "other", "our", "out", "over", "own", "same", "she", "should", "so",
   "some", "such", "than", "that", "the", "their", "them", "then", "there",
   "these", "they", "this", "those", "through", "to", "too", "under",
   "until", "up", "very", "was", "we", "were", "what", "when", "where",
   "which", "while", "who", "whom", "why", "will", "with", "would", "you",
   "your"]

/-- The analyzer of the vectorizer: lower-case, take maximal word-character
    runs of length at least two, drop stop words. -/
def tokenize (s : String) : List String :=
  (((tokenRuns [] (s.data.map Char.toLower)).filter fun cs => 2 ≤ cs.length).map
      fun cs => String.mk cs).filter fun t => !(englishStopWords.contains t)

/-- The learned vocabulary: the distinct terms observed across the corpus.
    The vectorizer stores it sorted; component order is immaterial to every
    dot product below, so a duplicate-free enumeration suffices. -/
def vocabulary (docs : List (List String)) : List String :=
  docs.flatten.dedup

/-- Raw term frequency of one term in one token list. -/
def termCount (t : String) (tokens : List String) : Nat := tokens.count t

/-- Document frequency: the number of corpus documents containing the term. -/
def docFreq (docs : List (List String)) (t : String) : Nat :=
  (docs.filter fun d => d.contains t).length

/-- The tf-idf weight vector of a token list over the corpus vocabulary.
    The idf parameter models the smoothed inverse document frequency
    log ((1 + n) / (1 + df)) + 1 of the vectorizer, as a function of the
    corpus size and the document frequency; its real value is irrational,
    and every theorem below quantifies over it.  A term outside the
    vocabulary contributes no component at all, so out-of-vocabulary query
    terms are dropped silently. -/
def weightVec (idf : Nat → Nat → ℚ) (docs : List (List String))
    (tokens : List String) : List ℚ :=
  (vocabulary docs).map fun t =>
    (termCount t tokens : ℚ) * idf docs.length (docFreq docs t)

/-- Dot product of two weight vectors. -/
def dotQ : List ℚ → List ℚ → ℚ
  | a :: as, b :: bs => a * b + dotQ as bs
  | _, _ => 0

/-- Cosine similarity of two weight vectors, as sklearn computes it: both
    vectors are L2-normalized (a zero vector stays zero, hence similarity
    zero) and then multiplied.  The sqrtF parameter models the real square
    root used in the normalization; every theorem below quantifies over it. -/
def cosineSim (sqrtF : ℚ → ℚ) (v w : List ℚ) : ℚ :=
  if dotQ v v = 0 ∨ dotQ w w = 0 then 0
  else dotQ v w / (sqrtF (dotQ v v) * sqrtF (dotQ w w))

/-- Line 100: the flattened row of cosine similarities of the query vector
    against every document vector. -/
def similarityScores (sqrtF : ℚ → ℚ) (idf : Nat → Nat → ℚ)
    (docs : List (List String)) (queryToks : List String) : List ℚ :=
  docs.map fun d =>
    cosineSim sqrtF (weightVec idf docs queryToks) (weightVec idf docs d)

/-- The tokenized corpus the vectorizer is fitted on. -/
def corpusTokens (pt : ProjTable) : List (List String) :=
  pt.rows.map fun r => tokenize (combinedText pt r)

/-- The similarity vector the pipeline computes for a query. -/
def pipelineSims (sqrtF : ℚ → ℚ) (idf : Nat → Nat → ℚ) (pt : ProjTable)
    (query : String) : List ℚ :=
  similarityScores sqrtF idf (corpusTokens pt) (tokenize query)

/-- The comparison the argsort model sorts the index range by: ascending
    score, with equal scores kept in ascending index order.  The real
    numpy argsort with its default quicksort kind guarantees this tie
    order only on small arrays, where it runs an insertion sort (segments
    of at most sixteen elements); on larger arrays the tie order among
    equal scores is unspecified.  No verdict below relies on the modelled
    tie order except on arrays small enough for it to be exact. -/
def scoreLE (sims : List ℚ) (i j : Nat) : Prop :=
  sims.getD i 0 < sims.getD j 0 ∨ (sims.getD i 0 = sims.getD j 0 ∧ i ≤ j)

instance scoreLEDecidable (sims : List ℚ) : DecidableRel (scoreLE sims) :=
  fun _ _ => inferInstanceAs (Decidable (_ ∨ _))

instance scoreLETotal (sims : List ℚ) : IsTotal Nat (scoreLE sims) where
  total i j := by
    unfold scoreLE
    rcases lt_trichotomy (sims.getD i 0) (sims.getD j 0) with h | h | h
    · exact Or.inl (Or.inl h)
    · rcases Nat.le_total i j with hij | hij
      · exact Or.inl (Or.inr ⟨h, hij⟩)
      · exact Or.inr (Or.inr ⟨h.symm, hij⟩)
    · exact Or.inr (Or.inl h)

instance scoreLETrans (sims : List ℚ) : IsTrans Nat (scoreLE sims) where
  trans i j k hij hjk := by
    unfold scoreLE at hij hjk ⊢
    rcases hij with h1 | ⟨e1, l1⟩ <;> rcases hjk with h2 | ⟨e2, l2⟩
    · exact Or.inl (h1.trans h2)
    · exact Or.inl (by rw [← e2]; exact h1)
    · exact Or.inl (by rw [e1]; exact h2)
    · exact Or.inr ⟨e1.trans e2, l1.trans l2⟩

/-- similarities.argsort of line 103: the indices of the similarity list
    sorted by ascending score. -/
def argsort (sims : List ℚ) : List Nat :=
  (List.range sims.length).insertionSort (scoreLE sims)

/-- The Python slice l[-n:] for an arbitrary integer n.  For positive n it
    keeps the last min n (length l) elements; for n = 0 the start index -0
    is 0, so the whole list is kept; for negative n the start index -n is
    positive, dropping the first elements. -/
def pyTailSlice (n : Int) (l : List α) : List α :=
  l.drop (if 0 < n then l.length - min n.toNat l.length else min (-n).toNat l.length)

/-- top_indices of line 103: argsort, keep the tail slice of length n_top,
    reverse. -/
def topIndices (nTop : Int) (sims : List ℚ) : List Nat :=
  (pyTailSlice nTop (argsort sims)).reverse

/-- Python round to four decimal digits on an exact rational: round half
    to even of 10000 q, divided by 10000. -/
def roundHalfEven (q : ℚ) : Int :=
  if q - ⌊q⌋ < 1/2 then ⌊q⌋
  else if 1/2 < q - ⌊q⌋ then ⌊q⌋ + 1
  else if 2 ∣ ⌊q⌋ then ⌊q⌋ else ⌊q⌋ + 1

/-- round(score, 4) of lines 142 and 155. -/
def round4 (q : ℚ) : ℚ := (roundHalfEven (q * 10000) : ℚ) / 10000

/-- Line 130: the role cell, lower-cased, equals the literal coordinator.
    A null role lower-cases to NaN in pandas and never matches. -/
def roleIsCoordinator (r : OrgRow) : Bool :=
  match r.role with
  | some s => lowerStr s == "coordinator"
  | none => false

/-- Line 128: the organization rows whose projectID cell equals the given
    identifier under the exact pandas equality (row order preserved). -/
def matchingOrgs (orgs : OrgTable) (pid : Cell) : List OrgRow :=
  orgs.rows.filter fun r => cellEq r.projectID pid

/-- Lines 129-132: filter the matching rows by role when the role column
    exists, otherwise an empty frame. -/
def coordinatorsOf (orgs : OrgTable) (pid : Cell) : List OrgRow :=
  if orgs.hasRole then (matchingOrgs orgs pid).filter roleIsCoordinator
  else []

/-- The coordinator lookup of lines 128-132 including the KeyError that
    line 128 raises when the organizations table has no projectID column. -/
def resolveCoordinators (orgs : OrgTable) (pid : Cell) :
    Except String (List OrgRow) :=
  if orgs.hasProjectID then .ok (coordinatorsOf orgs pid)
  else .error "projectID"

/-- Line 114: the project identifier, from the projectID column when it
    exists, else from the id column, else the literal Unknown. -/
def projectIdOf (t : ProjTable) (r : ProjRow) : Cell :=
  if t.hasProjectID then r.projectID
  else if t.hasId then r.rowId
  else some "Unknown"

/-- One flat output record, with the fields the results dictionaries of
    lines 141-164 carry. -/
structure ResultRow where
  simScore : ℚ
  projectId : Cell
  acronym : Cell
  title : Cell
  startDate : Cell
  endDate : Cell
  coordName : Cell
  coordCountry : Cell
  coordCity : Cell
deriving DecidableEq

/-- The result row appended per coordinator at lines 141-151. -/
def coordRow (pt : ProjTable) (orgs : OrgTable) (score : ℚ) (p : ProjRow)
    (org : OrgRow) : ResultRow :=
  { simScore := round4 score
    projectId := projectIdOf pt p
    acronym := cellGet pt.hasAcronym p.acronym "Unknown"
    title := cellGet pt.hasTitle p.title "Unknown"
    startDate := cellGet pt.hasStartDate p.startDate "Unknown"
    endDate := cellGet pt.hasEndDate p.endDate "Unknown"
    coordName := cellGet orgs.hasName org.orgName "Unknown"
    coordCountry := cellGet orgs.hasCountry org.country "Unknown"
    coordCity := cellGet orgs.hasCity org.city "Unknown" }

/-- The sentinel row appended at lines 154-164 when no coordinator
    resolves. -/
def sentinelRow (pt : ProjTable) (score : ℚ) (p : ProjRow) : ResultRow :=
  { simScore := round4 score
    projectId := projectIdOf pt p
    acronym := cellGet pt.hasAcronym p.acronym "Unknown"
    title := cellGet pt.hasTitle p.title "Unknown"
    startDate := cellGet pt.hasStartDate p.startDate "Unknown"
    endDate := cellGet pt.hasEndDate p.endDate "Unknown"
    coordName := some "None found"
    coordCountry := some ""
    coordCity := some "" }

/-- The row used when an index is out of range; never reached, since every
    selected index comes from the range of the corpus length. -/
def defaultProjRow : ProjRow := {}

/-- Lines 134-164: one row per coordinator when any resolve, else exactly
    one sentinel row. -/
def rowsFromCoords (pt : ProjTable) (orgs : OrgTable) (score : ℚ)
    (p : ProjRow) (coords : List OrgRow) : List ResultRow :=
  if coords.isEmpty then [sentinelRow pt score p]
  else coords.map (coordRow pt orgs score p)

/-- The block of output rows one ranked index contributes. -/
def rowsForIndex (pt : ProjTable) (orgs : OrgTable) (sims : List ℚ)
    (idx : Nat) : List ResultRow :=
  rowsFromCoords pt orgs (sims.getD idx 0) (pt.rows.getD idx defaultProjRow)
    (coordinatorsOf orgs (projectIdOf pt (pt.rows.getD idx defaultProjRow)))

/-- The result-accumulation loop of lines 111-164: iterate over the ranked
    indices in order, resolving coordinators for each; a missing projectID
    column raises at the first iteration and abandons the accumulated rows. -/
def assemble (pt : ProjTable) (orgs : OrgTable) (sims : List ℚ) :
    List Nat → Except String (List ResultRow)
  | [] => .ok []
  | idx :: rest =>
    match resolveCoordinators orgs
        (projectIdOf pt (pt.rows.getD idx defaultProjRow)) with
    | .error e => .error e
    | .ok coords =>
      match assemble pt orgs sims rest with
      | .error e => .error e
      | .ok tail =>
        .ok (rowsFromCoords pt orgs (sims.getD idx 0)
          (pt.rows.getD idx defaultProjRow) coords ++ tail)

/-- The observable outcome of one run of find_coordinators: the bare
    return None after the missing-columns message, an uncaught exception,
    or the list of result rows. -/
inductive PipeResult where
  | noneReturned
  | raised (msg : String)
  | ok (rows : List ResultRow)
deriving DecidableEq

/-- The core of find_coordinators (lines 58-166) on two already-loaded
    tables.  When none of title, objective, topics exists the function
    prints a message and returns None (lines 83-85).  Fitting the
    vectorizer on a corpus with an empty vocabulary raises a ValueError
    inside fit_transform (line 94); afterwards the loop assembles the
    result rows for the ranked indices. -/
def find_coordinators (sqrtF : ℚ → ℚ) (idf : Nat → Nat → ℚ)
    (pt : ProjTable) (orgs : OrgTable) (query : String) (nTop : Int) :
    PipeResult :=
  if ¬(pt.hasTitle ∨ pt.hasObjective ∨ pt.hasTopics) then .noneReturned
  else if vocabulary (corpusTokens pt) = [] then .raised "empty vocabulary"
  else
    match assemble pt orgs (pipelineSims sqrtF idf pt query)
        (topIndices nTop (pipelineSims sqrtF idf pt query)) with
    | .error e => .raised e
    | .ok rows => .ok rows

/-- The rows of a successful outcome. -/
def okRows : PipeResult → List ResultRow
  | .ok rows => rows
  | _ => []

/-- The normalizer as the spec words it: the values of the present
    columns, in the fixed order title, objective, topics, nulls as empty
    strings, joined by single-space separators, an absent column
    contributing nothing, not even a separator. -/
def joinWithSpaces : List String → String
  | [] => ""
  | [x] => x
  | x :: rest => x ++ " " ++ joinWithSpaces rest

/-- A concrete stand-in for the real square root in evaluated examples. -/
def sqrtId : ℚ → ℚ := fun q => q

/-- A concrete stand-in for the real idf function in evaluated examples. -/
def idfOne : Nat → Nat → ℚ := fun _ _ => 1

/-- A two-project table whose rows carry identical text, so that both
    similarity scores against any query are exactly equal. -/
def cexProjects : ProjTable :=
  { hasTitle := true, hasProjectID := true,
    rows := [{ projectID := some "P1", title := some "alpha news" },
             { projectID := some "P2", title := some "alpha news" }] }

/-- A small organizations table with a single coordinator, for project P1. -/
def cexOrgs : OrgTable :=
  { hasProjectID := true, hasRole := true, hasName := true,
    rows := [{ projectID := some "P1", role := some "Coordinator",
               orgName := some "OrgA" }] }

/-- An organizations table exercising the role filter: case variants of
    coordinator, a non-coordinator role, a different project and a null
    linkage cell. -/
def rolesOrgs : OrgTable :=
  { hasProjectID := true, hasRole := true, hasName := true,
    rows := [{ projectID := some "P1", role := some "Coordinator",
               orgName := some "OrgA" },
             { projectID := some "P1", role := some "partner",
               orgName := some "OrgB" },
             { projectID := some "P2", role := some "coordinator",
               orgName := some "OrgC" },
             { projectID := some "P1", role := some "COORDINATOR",
               orgName := some "OrgD" },
             { projectID := none, role := some "coordinator",
               orgName := some "OrgE" }] }

/-- An organizations table with no projectID column. -/
def noLinkOrgs : OrgTable :=
  { hasProjectID := false, hasRole := true, hasName := true, rows := [] }

/-- A projects table with a row but no usable text: the title tokenizes to
    nothing (both runs are single characters), so the vocabulary is empty. -/
def noTermProjects : ProjTable :=
  { hasTitle := true, hasProjectID := true,
    rows := [{ projectID := some "P1", title := some "a b" }] }

/-- A projects table without any of the three text columns. -/
def noTextProjects : ProjTable :=
  { hasProjectID := true, hasAcronym := true,
    rows := [{ projectID := some "P1", acronym := some "ACME" }] }

/-- A sample project row used by concrete instances below. -/
def sampleRow : ProjRow := { projectID := some "P1", title := some "alpha news" }

/-- The two rows of rolesOrgs that really are coordinators of P1. -/
def coordMatches : List OrgRow :=
  [{ projectID := some "P1", role := some "Coordinator",
     orgName := some "OrgA" },
   { projectID := some "P1", role := some "COORDINATOR",
     orgName := some "OrgD" }]

/-! Helper lemmas about the ranking stage. -/

lemma argsort_perm (sims : List ℚ) :
    (argsort sims).Perm (List.range sims.length) :=
  List.perm_insertionSort (scoreLE sims) (List.range sims.length)

lemma argsort_length (sims : List ℚ) : (argsort sims).length = sims.length :=
  (argsort_perm sims).length_eq.trans (List.length_range _)

lemma argsort_sorted (sims : List ℚ) :
    (argsort sims).Pairwise (scoreLE sims) :=
  List.sorted_insertionSort (scoreLE sims) (List.range sims.length)

lemma argsort_nodup (sims : List ℚ) : (argsort sims).Nodup :=
  (argsort_perm sims).nodup_iff.mpr (List.nodup_range _)

lemma pyTailSlice_eq_drop (n : Int) (l : List α) :
    pyTailSlice n l =
      l.drop (if 0 < n then l.length - min n.toNat l.length
              else min (-n).toNat l.length) := rfl

lemma topIndices_sublist (nTop : Int) (sims : List ℚ) :
    (pyTailSlice nTop (argsort sims)).Sublist (argsort sims) := by
  rw [pyTailSlice_eq_drop]
  exact List.drop_sublist _ _

lemma topIndices_nodup (nTop : Int) (sims : List ℚ) :
    (topIndices nTop sims).Nodup := by
  unfold topIndices
  rw [List.nodup_reverse]
  exact ((topIndices_sublist nTop sims).nodup (argsort_nodup sims))

lemma topIndices_length_of_pos (nTop : Int) (sims : List ℚ) (h : 1 ≤ nTop) :
    (topIndices nTop sims).length = min nTop.toNat sims.length := by
  unfold topIndices
  rw [List.length_reverse, pyTailSlice_eq_drop, List.length_drop,
    argsort_length, if_pos (by omega : (0:Int) < nTop)]
  have hm : min nTop.toNat sims.length ≤ sims.length := Nat.min_le_right _ _
  omega

lemma topIndices_zero_perm (sims : List ℚ) :
    (topIndices 0 sims).Perm (List.range sims.length) := by
  unfold topIndices
  have h0 : pyTailSlice 0 (argsort sims) = argsort sims := by
    rw [pyTailSlice_eq_drop]
    norm_num
  rw [h0]
  exact (List.reverse_perm _).trans (argsort_perm sims)

lemma topIndices_pairwise (nTop : Int) (sims : List ℚ) :
    (topIndices nTop sims).Pairwise fun i j =>
      sims.getD j 0 < sims.getD i 0 ∨
        (sims.getD i 0 = sims.getD j 0 ∧ j < i) := by
  have hs : (pyTailSlice nTop (argsort sims)).Pairwise
      (fun i j => scoreLE sims i j ∧ i ≠ j) :=
    List.Pairwise.sublist (topIndices_sublist nTop sims)
      ((argsort_sorted sims).and (argsort_nodup sims))
  unfold topIndices
  rw [List.pairwise_reverse]
  refine hs.imp ?_
  rintro i j ⟨hle, hne⟩
  rcases hle with hlt | ⟨heq, hij⟩
  · exact Or.inl hlt
  · exact Or.inr ⟨heq.symm, lt_of_le_of_ne hij hne⟩

/-! Helper lemmas about rounding. -/

lemma roundHalfEven_ge_floor (q : ℚ) : ⌊q⌋ ≤ roundHalfEven q := by
  unfold roundHalfEven
  split_ifs <;> omega

lemma roundHalfEven_le_floor_add_one (q : ℚ) : roundHalfEven q ≤ ⌊q⌋ + 1 := by
  unfold roundHalfEven
  split_ifs <;> omega

lemma roundHalfEven_mono {x y : ℚ} (h : x ≤ y) :
    roundHalfEven x ≤ roundHalfEven y := by
  rcases lt_or_eq_of_le (Int.floor_le_floor h) with hf | hf
  · calc roundHalfEven x ≤ ⌊x⌋ + 1 := roundHalfEven_le_floor_add_one x
      _ ≤ ⌊y⌋ := by omega
      _ ≤ roundHalfEven y := roundHalfEven_ge_floor y
  · unfold roundHalfEven
    rw [← hf]
    split_ifs <;> first | omega | linarith

lemma round4_mono {x y : ℚ} (h : x ≤ y) : round4 x ≤ round4 y := by
  unfold round4
  have h1 : x * 10000 ≤ y * 10000 := by linarith
  have h2 : ((roundHalfEven (x * 10000) : Int) : ℚ) ≤
      ((roundHalfEven (y * 10000) : Int) : ℚ) := by
    exact_mod_cast roundHalfEven_mono h1
  gcongr

lemma round4_zero : round4 0 = 0 := by
  norm_num [round4, roundHalfEven]

/-! Helper lemmas about the assembly loop. -/

lemma rowsForIndex_eq (pt : ProjTable) (orgs : OrgTable) (sims : List ℚ)
    (idx : Nat) :
    rowsForIndex pt orgs sims idx =
      rowsFromCoords pt orgs (sims.getD idx 0) (pt.rows.getD idx defaultProjRow)
        (coordinatorsOf orgs (projectIdOf pt (pt.rows.getD idx defaultProjRow))) :=
  rfl

lemma assemble_ok_eq (pt : ProjTable) (orgs : OrgTable) (sims : List ℚ)
    (idxs : List Nat) :
    ∀ rows, assemble pt orgs sims idxs = .ok rows →
      rows = idxs.flatMap (rowsForIndex pt orgs sims) := by
  induction idxs with
  | nil =>
    intro rows h
    simp only [assemble, Except.ok.injEq] at h
    simp [← h]
  | cons idx rest ih =>
    intro rows h
    unfold assemble at h
    rcases hr : resolveCoordinators orgs
        (projectIdOf pt (pt.rows.getD idx defaultProjRow)) with e | coords <;>
      rw [hr] at h
    · simp at h
    · rcases ha : assemble pt orgs sims rest with e2 | tail <;> rw [ha] at h
      · simp at h
      · simp only [Except.ok.injEq] at h
        have hc : coords = coordinatorsOf orgs
            (projectIdOf pt (pt.rows.getD idx defaultProjRow)) := by
          unfold resolveCoordinators at hr
          split at hr
          · simp only [Except.ok.injEq] at hr
            exact hr.symm
          · simp at hr
        rw [← h, List.flatMap_cons, ih tail ha, rowsForIndex_eq, hc]

lemma assemble_ok_of_linkage (pt : ProjTable) (orgs : OrgTable)
    (sims : List ℚ) (hcol : orgs.hasProjectID = true) (idxs : List Nat) :
    assemble pt orgs sims idxs =
      .ok (idxs.flatMap (rowsForIndex pt orgs sims)) := by
  induction idxs with
  | nil => simp [assemble]
  | cons idx rest ih =>
    unfold assemble
    rw [ih]
    simp [resolveCoordinators, hcol, rowsForIndex_eq, List.flatMap_cons]

lemma assemble_error_of_no_linkage (pt : ProjTable) (orgs : OrgTable)
    (sims : List ℚ) (hcol : orgs.hasProjectID = false) (idx : Nat)
    (rest : List Nat) :
    assemble pt orgs sims (idx :: rest) = .error "projectID" := by
  unfold assemble
  simp [resolveCoordinators, hcol]

lemma find_ok_rows {sqrtF : ℚ → ℚ} {idf : Nat → Nat → ℚ} {pt : ProjTable}
    {orgs : OrgTable} {query : String} {nTop : Int} {rows : List ResultRow}
    (h : find_coordinators sqrtF idf pt orgs query nTop = .ok rows) :
    rows = (topIndices nTop (pipelineSims sqrtF idf pt query)).flatMap
      (rowsForIndex pt orgs (pipelineSims sqrtF idf pt query)) := by
  unfold find_coordinators at h
  split at h
  · simp at h
  · split at h
    · simp at h
    · rcases ha : assemble pt orgs (pipelineSims sqrtF idf pt query)
          (topIndices nTop (pipelineSims sqrtF idf pt query)) with e | rws <;>
        rw [ha] at h
      · simp at h
      · simp only [PipeResult.ok.injEq] at h
        rw [← h]
        exact assemble_ok_eq _ _ _ _ rws ha

lemma simScore_of_mem_rowsForIndex {pt : ProjTable} {orgs : OrgTable}
    {sims : List ℚ} {idx : Nat} {r : ResultRow}
    (h : r ∈ rowsForIndex pt orgs sims idx) :
    r.simScore = round4 (sims.getD idx 0) := by
  rw [rowsForIndex_eq] at h
  unfold rowsFromCoords at h
  split at h
  · simp only [List.mem_singleton] at h
    rw [h]
    rfl
  · simp only [List.mem_map] at h
    obtain ⟨org, _, rfl⟩ := h
    rfl

lemma rowsForIndex_ne_nil (pt : ProjTable) (orgs : OrgTable) (sims : List ℚ)
    (idx : Nat) : rowsForIndex pt orgs sims idx ≠ [] := by
  rw [rowsForIndex_eq]
  unfold rowsFromCoords
  split
  · simp
  · rename_i hne
    simp only [ne_eq, List.map_eq_nil_iff]
    intro hc
    rw [hc] at hne
    simp at hne

/-! Helper lemmas about out-of-vocabulary queries. -/

lemma weightVec_all_zero_of_oov {idf : Nat → Nat → ℚ}
    {docs : List (List String)} {qtoks : List String}
    (h : ∀ t ∈ qtoks, t ∉ vocabulary docs) :
    ∀ x ∈ weightVec idf docs qtoks, x = 0 := by
  intro x hx
  unfold weightVec at hx
  simp only [List.mem_map] at hx
  obtain ⟨t, ht, rfl⟩ := hx
  have ht2 : t ∉ qtoks := fun hq => h t hq ht
  have hc : termCount t qtoks = 0 := by
    unfold termCount
    exact List.count_eq_zero.mpr ht2
  simp [hc]

lemma dotQ_self_zero {v : List ℚ} (h : ∀ x ∈ v, x = 0) : dotQ v v = 0 := by
  induction v with
  | nil => rfl
  | cons a as ih =>
    have ha : a = 0 := h a (by simp)
    have has : dotQ as as = 0 := ih fun x hx => h x (List.mem_cons_of_mem a hx)
    simp [dotQ, ha, has]

lemma similarityScores_oov {sqrtF : ℚ → ℚ} {idf : Nat → Nat → ℚ}
    {docs : List (List String)} {qtoks : List String}
    (h : ∀ t ∈ qtoks, t ∉ vocabulary docs) :
    similarityScores sqrtF idf docs qtoks = docs.map fun _ => 0 := by
  unfold similarityScores
  refine List.map_congr_left fun d _ => ?_
  unfold cosineSim
  rw [if_pos]
  exact Or.inl (dotQ_self_zero (weightVec_all_zero_of_oov h))

lemma getD_map_const_zero {β : Type} (docs : List β) (idx : Nat) :
    (docs.map fun _ => (0:ℚ)).getD idx 0 = 0 := by
  induction docs generalizing idx with
  | nil => simp
  | cons d ds ih =>
    cases idx with
    | zero => simp
    | succ n => simp [ih n]

lemma pipelineSims_length (sqrtF : ℚ → ℚ) (idf : Nat → Nat → ℚ)
    (pt : ProjTable) (query : String) :
    (pipelineSims sqrtF idf pt query).length = pt.rows.length := by
  simp [pipelineSims, similarityScores, corpusTokens]

/-! Helper lemmas about the concatenation of text columns. -/

lemma foldl_sep_eq_join (rest : List String) (h : String) :
    rest.foldl (fun acc c => acc ++ " " ++ c) h = joinWithSpaces (h :: rest) := by
  induction rest generalizing h with
  | nil => rfl
  | cons c cs ih =>
    rw [List.foldl_cons, ih]
    cases cs with
    | nil => rfl
    | cons d ds => simp [joinWithSpaces, String.append_assoc]

lemma combinedText_eq_join (t : ProjTable) (r : ProjRow) :
    combinedText t r = joinWithSpaces (textData t r) := by
  unfold combinedText
  cases htd : textData t r with
  | nil => rfl
  | cons x rest => exact foldl_sep_eq_join rest x

lemma textData_eq_map (t : ProjTable) (r : ProjRow) :
    ((if t.hasTitle then [r.title] else []) ++
        (if t.hasObjective then [r.objective] else []) ++
          (if t.hasTopics then [r.topics] else [])).map (fun c => c.getD "") =
      textData t r := by
  unfold textData fillna
  cases t.hasTitle <;> cases t.hasObjective <;> cases t.hasTopics <;> simp

/-! The claims. -/

/-- C1: coordinator resolution for identifier X returns, in table row
    order, exactly the organization rows whose projectID cell equals X
    under the exact pandas cell equality (no case or whitespace
    normalization) and whose role, compared case-insensitively, equals
    the word coordinator; when the role column is absent from the schema
    it returns the empty list for every query rather than failing.
    Stated for tables carrying the projectID linkage column, since line
    128 raises on any other table (see the claim about the missing
    linkage column). -/
theorem resolver_exact_match (orgs : OrgTable) (pid : String)
    (l : List OrgRow)
    (h : resolveCoordinators orgs (some pid) = .ok l) :
    (orgs.hasRole = true →
      l = orgs.rows.filter fun r =>
        cellEq r.projectID (some pid) && roleIsCoordinator r) ∧
    (orgs.hasRole = false → l = []) := by
  unfold resolveCoordinators at h
  split at h
  · simp only [Except.ok.injEq] at h
    subst h
    constructor
    · intro hr
      unfold coordinatorsOf matchingOrgs
      rw [if_pos hr, List.filter_filter]
      exact List.filter_congr fun r _ => Bool.and_comm _ _
    · intro hr
      unfold coordinatorsOf
      rw [hr]
      simp
  · simp at h

/-- C3 (amended): the ranked selection is ordered by descending
    similarity score — every pair of selected indices, in emission order,
    has non-increasing scores, a fact independent of how the sort orders
    ties.  The claimed stable original-order tie-break does not hold: the
    program fixes no tie order in general, and on arrays small enough for
    the numpy sort to be its exact insertion sort the reversal emits
    equal scores in reverse corpus row order (see the counterexample). -/
theorem ranking_scores_descending (sims : List ℚ) (nTop : Int) :
    (topIndices nTop sims).Pairwise fun i j =>
      sims.getD j 0 ≤ sims.getD i 0 :=
  (topIndices_pairwise nTop sims).imp fun h => by
    rcases h with hlt | ⟨heq, _⟩
    · exact le_of_lt hlt
    · exact le_of_eq heq.symm

/-- C4 (amended): when none of title, objective, topics is present in the
    projects table the pipeline does not raise a typed error: after
    printing a message naming the expected columns it returns the Python
    None value, modelled as the noneReturned outcome, so no corpus and no
    rows are produced. -/
theorem missing_text_columns_return_none (sqrtF : ℚ → ℚ)
    (idf : Nat → Nat → ℚ) (pt : ProjTable) (orgs : OrgTable) (query : String)
    (nTop : Int) (h1 : pt.hasTitle = false) (h2 : pt.hasObjective = false)
    (h3 : pt.hasTopics = false) :
    find_coordinators sqrtF idf pt orgs query nTop = .noneReturned := by
  unfold find_coordinators
  rw [if_pos]
  simp [h1, h2, h3]

/-- C5 (amended): for top_n at least 1 the ranked selection consists of
    exactly min top_n (corpus size) pairwise-distinct corpus rows; since
    every selected row contributes at least one output row, that many
    distinct projects are represented in the output. -/
theorem coverage_equals_min (sims : List ℚ) (nTop : Int) (h : 1 ≤ nTop) :
    (topIndices nTop sims).Nodup ∧
    (topIndices nTop sims).length = min nTop.toNat sims.length :=
  ⟨topIndices_nodup nTop sims, topIndices_length_of_pos nTop sims h⟩

/-- C8: for a projects table with at least one of the three text columns,
    combined_text equals the values of the present columns, in the fixed
    order title, objective, topics, null cells replaced by the empty
    string, joined by single-space separators, an absent column
    contributing nothing, not even a separator. -/
theorem combined_text_is_spaced_join (t : ProjTable) (r : ProjRow)
    (h : t.hasTitle = true ∨ t.hasObjective = true ∨ t.hasTopics = true) :
    combinedText t r =
      joinWithSpaces
        (((if t.hasTitle then [r.title] else []) ++
            (if t.hasObjective then [r.objective] else []) ++
              (if t.hasTopics then [r.topics] else [])).map fun c =>
          c.getD "") := by
  rw [textData_eq_map]
  exact combinedText_eq_join t r

/-- C9: with top_n = 0 the slice similarities.argsort()[-0:] keeps the
    whole array, so the selection has exactly corpus-size entries and
    contains every corpus index: the pipeline ranks the entire corpus
    rather than returning an empty result. -/
theorem topn_zero_selects_whole_corpus (sims : List ℚ) :
    (topIndices 0 sims).length = sims.length ∧
    ∀ i, i < sims.length → i ∈ topIndices 0 sims := by
  have hp := topIndices_zero_perm sims
  constructor
  · exact hp.length_eq.trans (List.length_range _)
  · intro i hi
    exact hp.mem_iff.mpr (List.mem_range.mpr hi)

/-- C2: on a successful run the output is exactly the concatenation of
    the per-match row blocks, in rank order; each block is non-empty, is
    one row per resolved coordinator when any resolve, and is exactly one
    sentinel row whose coordinator name reads None found when none do, so
    no ranked project is ever dropped from the output. -/
theorem every_ranked_match_yields_rows (sqrtF : ℚ → ℚ)
    (idf : Nat → Nat → ℚ) (pt : ProjTable) (orgs : OrgTable) (query : String)
    (nTop : Int) (rows : List ResultRow)
    (h : find_coordinators sqrtF idf pt orgs query nTop = .ok rows) :
    rows = (topIndices nTop (pipelineSims sqrtF idf pt query)).flatMap
        (rowsForIndex pt orgs (pipelineSims sqrtF idf pt query)) ∧
    ∀ idx ∈ topIndices nTop (pipelineSims sqrtF idf pt query),
      rowsForIndex pt orgs (pipelineSims sqrtF idf pt query) idx ≠ [] ∧
      ((coordinatorsOf orgs
            (projectIdOf pt (pt.rows.getD idx defaultProjRow))).isEmpty = false →
        rowsForIndex pt orgs (pipelineSims sqrtF idf pt query) idx =
          (coordinatorsOf orgs
              (projectIdOf pt (pt.rows.getD idx defaultProjRow))).map
            (coordRow pt orgs ((pipelineSims sqrtF idf pt query).getD idx 0)
              (pt.rows.getD idx defaultProjRow))) ∧
      ((coordinatorsOf orgs
            (projectIdOf pt (pt.rows.getD idx defaultProjRow))).isEmpty = true →
        rowsForIndex pt orgs (pipelineSims sqrtF idf pt query) idx =
          [sentinelRow pt ((pipelineSims sqrtF idf pt query).getD idx 0)
            (pt.rows.getD idx defaultProjRow)] ∧
        (sentinelRow pt ((pipelineSims sqrtF idf pt query).getD idx 0)
            (pt.rows.getD idx defaultProjRow)).coordName = some "None found") := by
  refine ⟨find_ok_rows h, ?_⟩
  intro idx _
  refine ⟨rowsForIndex_ne_nil pt orgs _ idx, ?_, ?_⟩
  · intro hcne
    rw [rowsForIndex_eq]
    unfold rowsFromCoords
    rw [if_neg (by simp only [hcne]; simp)]
  · intro hce
    rw [rowsForIndex_eq]
    unfold rowsFromCoords
    rw [if_pos hce]
    exact ⟨rfl, rfl⟩

/-- C6: on a successful run the similarity scores stored in the output
    rows are monotonically non-increasing from each row to the next: the
    selection is sorted by descending score, all rows of one block carry
    the same rounded score, and rounding is monotone. -/
theorem scores_nonincreasing (sqrtF : ℚ → ℚ) (idf : Nat → Nat → ℚ)
    (pt : ProjTable) (orgs : OrgTable) (query : String) (nTop : Int)
    (rows : List ResultRow)
    (h : find_coordinators sqrtF idf pt orgs query nTop = .ok rows) :
    rows.Chain' fun a b => b.simScore ≤ a.simScore := by
  have hrw := find_ok_rows h
  subst hrw
  apply List.Pairwise.chain'
  rw [List.flatMap_def, List.pairwise_flatten]
  constructor
  · intro block hb
    simp only [List.mem_map] at hb
    obtain ⟨idx, _, rfl⟩ := hb
    apply List.pairwise_of_forall_mem_list
    intro a ha b hbm
    rw [simScore_of_mem_rowsForIndex ha, simScore_of_mem_rowsForIndex hbm]
  · rw [List.pairwise_map]
    refine (topIndices_pairwise nTop
        (pipelineSims sqrtF idf pt query)).imp ?_
    intro i j hij x hx y hy
    rw [simScore_of_mem_rowsForIndex hx, simScore_of_mem_rowsForIndex hy]
    apply round4_mono
    rcases hij with hlt | ⟨heq, _⟩
    · exact le_of_lt hlt
    · exact le_of_eq heq.symm

/-- C7 (amended): provided the corpus vocabulary is non-empty (fitting
    the vectorizer on an empty vocabulary raises a ValueError) and the
    organizations table carries its linkage column, a query none of whose
    terms occurs in the corpus vocabulary is not an error for any top_n:
    the pipeline returns the assembled rows of the ranked selection and
    every output row carries similarity score 0; whenever top_n is at
    least 1 the selection consists of min top_n (corpus size) projects —
    top_n of them when top_n is at most the corpus size — while at
    top_n = 0 the whole corpus is selected instead. -/
theorem oov_query_returns_zero_scores (sqrtF : ℚ → ℚ) (idf : Nat → Nat → ℚ)
    (pt : ProjTable) (orgs : OrgTable) (query : String) (nTop : Int)
    (htext : pt.hasTitle = true ∨ pt.hasObjective = true ∨ pt.hasTopics = true)
    (hvocab : vocabulary (corpusTokens pt) ≠ [])
    (hcol : orgs.hasProjectID = true)
    (hq : ∀ t ∈ tokenize query, t ∉ vocabulary (corpusTokens pt)) :
    find_coordinators sqrtF idf pt orgs query nTop =
      .ok ((topIndices nTop (pipelineSims sqrtF idf pt query)).flatMap
        (rowsForIndex pt orgs (pipelineSims sqrtF idf pt query))) ∧
    (∀ r ∈ okRows (find_coordinators sqrtF idf pt orgs query nTop),
      r.simScore = 0) ∧
    (1 ≤ nTop →
      (topIndices nTop (pipelineSims sqrtF idf pt query)).length =
        min nTop.toNat pt.rows.length) := by
  have hzero : pipelineSims sqrtF idf pt query =
      (corpusTokens pt).map fun _ => 0 := similarityScores_oov hq
  have hok : find_coordinators sqrtF idf pt orgs query nTop =
      .ok ((topIndices nTop (pipelineSims sqrtF idf pt query)).flatMap
        (rowsForIndex pt orgs (pipelineSims sqrtF idf pt query))) := by
    unfold find_coordinators
    rw [if_neg (by rcases htext with h | h | h <;> simp [h]), if_neg hvocab,
      assemble_ok_of_linkage pt orgs _ hcol]
  refine ⟨hok, ?_, ?_⟩
  · intro r hr
    rw [hok] at hr
    simp only [okRows] at hr
    rw [List.mem_flatMap] at hr
    obtain ⟨idx, _, hmem⟩ := hr
    rw [simScore_of_mem_rowsForIndex hmem, hzero, getD_map_const_zero,
      round4_zero]
  · intro hn
    rw [topIndices_length_of_pos nTop (pipelineSims sqrtF idf pt query) hn,
      pipelineSims_length]

/-- C10: when the organizations table has no projectID column and at
    least one project gets ranked (non-empty corpus, non-negative top_n),
    the pipeline raises the KeyError of line 128 while resolving the
    first ranked match, rather than producing sentinel rows or empty
    match sets. -/
theorem missing_linkage_column_raises (sqrtF : ℚ → ℚ) (idf : Nat → Nat → ℚ)
    (pt : ProjTable) (orgs : OrgTable) (query : String) (nTop : Int)
    (htext : pt.hasTitle = true ∨ pt.hasObjective = true ∨ pt.hasTopics = true)
    (hvocab : vocabulary (corpusTokens pt) ≠ [])
    (hcol : orgs.hasProjectID = false)
    (hn : 0 ≤ nTop) (hrows : pt.rows ≠ []) :
    find_coordinators sqrtF idf pt orgs query nTop = .raised "projectID" := by
  have hsl : (pipelineSims sqrtF idf pt query).length = pt.rows.length :=
    pipelineSims_length sqrtF idf pt query
  have hr0 : pt.rows.length ≠ 0 := fun h0 => hrows (List.length_eq_zero.mp h0)
  have hlen : (topIndices nTop (pipelineSims sqrtF idf pt query)).length ≠ 0 := by
    rcases eq_or_lt_of_le hn with h0 | hpos
    · have hz := (topIndices_zero_perm
          (pipelineSims sqrtF idf pt query)).length_eq.trans (List.length_range _)
      rw [← h0, hz, hsl]
      exact hr0
    · rw [topIndices_length_of_pos _ _ (by omega), hsl]
      omega
  rcases hti : topIndices nTop (pipelineSims sqrtF idf pt query) with _ | ⟨i, is⟩
  · rw [hti] at hlen
    simp at hlen
  · unfold find_coordinators
    rw [if_neg (by rcases htext with h | h | h <;> simp [h]), if_neg hvocab, hti,
      assemble_error_of_no_linkage pt orgs _ hcol i is]

/-! Witnesses and counterexamples, evaluated on the concrete tables above.
    The arithmetic of Rat is irreducible by default; it is made
    semireducible inside this section so that the kernel evaluation behind
    decide can run the pipeline. -/

section

attribute [local semireducible] Rat.add Rat.mul Rat.sub Rat.inv

/-- Witness for resolver_exact_match: on the concrete table the resolver
    keeps the rows for OrgA and OrgD (both case variants of coordinator on
    project P1) and drops the partner, the other project and the row with
    a null linkage cell. -/
theorem resolver_exact_match_witness :
    (rolesOrgs.hasRole = true →
      coordMatches =
        rolesOrgs.rows.filter fun r =>
          cellEq r.projectID (some "P1") && roleIsCoordinator r) ∧
    (rolesOrgs.hasRole = false → coordMatches = []) :=
  resolver_exact_match rolesOrgs "P1" coordMatches rfl

/-- Witness for every_ranked_match_yields_rows on a concrete run. -/
theorem every_ranked_match_yields_rows_witness :
    okRows (find_coordinators sqrtId idfOne cexProjects cexOrgs "alpha" 2) =
      (topIndices 2 (pipelineSims sqrtId idfOne cexProjects "alpha")).flatMap
        (rowsForIndex cexProjects cexOrgs
          (pipelineSims sqrtId idfOne cexProjects "alpha")) :=
  (every_ranked_match_yields_rows sqrtId idfOne cexProjects cexOrgs "alpha" 2
    (okRows (find_coordinators sqrtId idfOne cexProjects cexOrgs "alpha" 2))
    (by decide)).1

/-- Counterexample to the claimed stable tie-break: the two corpus rows
    carry identical text, their scores are exactly equal, yet the ranked
    selection is index 1 before index 0 and the output lists project P2
    before project P1 — the reverse of corpus row order. -/
theorem stable_tie_counterexample :
    (pipelineSims sqrtId idfOne cexProjects "alpha").getD 0 0 =
      (pipelineSims sqrtId idfOne cexProjects "alpha").getD 1 0 ∧
    topIndices 2 (pipelineSims sqrtId idfOne cexProjects "alpha") = [1, 0] ∧
    (okRows (find_coordinators sqrtId idfOne cexProjects cexOrgs "alpha" 2)).map
        (fun r => r.projectId) = [some "P2", some "P1"] := by decide

/-- Counterexample to the claimed typed schema error: on a table with no
    text columns the pipeline returns the Python None value instead of
    raising. -/
theorem missing_text_columns_counterexample :
    find_coordinators sqrtId idfOne noTextProjects cexOrgs "climate" 5 =
      .noneReturned := by decide

/-- Witness for missing_text_columns_return_none on a concrete run. -/
theorem missing_text_columns_return_none_witness :
    noTextProjects.hasTitle = false ∧ noTextProjects.hasObjective = false ∧
    noTextProjects.hasTopics = false ∧
    find_coordinators sqrtId idfOne noTextProjects cexOrgs "solar" 3 =
      .noneReturned :=
  ⟨rfl, rfl, rfl,
    missing_text_columns_return_none sqrtId idfOne noTextProjects cexOrgs
      "solar" 3 rfl rfl rfl⟩

/-- Counterexample to coverage at top_n = 0: the slice -0 selects the
    whole corpus, so two distinct projects are represented in the output
    although min top_n (corpus size) is zero. -/
theorem coverage_zero_counterexample :
    ((okRows (find_coordinators sqrtId idfOne cexProjects cexOrgs "alpha" 0)).map
        (fun r => r.projectId)).dedup.length = 2 ∧
    min (Int.toNat 0) cexProjects.rows.length = 0 := by decide

/-- Witness for coverage_equals_min on a three-element score list. -/
theorem coverage_equals_min_witness :
    (1:Int) ≤ 2 ∧
    ((topIndices 2 [(1:ℚ), 2, 3]).Nodup ∧
      (topIndices 2 [(1:ℚ), 2, 3]).length =
        min (2:Int).toNat [(1:ℚ), 2, 3].length) :=
  ⟨by decide, coverage_equals_min [(1:ℚ), 2, 3] 2 (by decide)⟩

/-- Witness for scores_nonincreasing on a concrete run. -/
theorem scores_nonincreasing_witness :
    (okRows (find_coordinators sqrtId idfOne cexProjects cexOrgs "alpha" 2)).Chain'
      (fun a b => b.simScore ≤ a.simScore) :=
  scores_nonincreasing sqrtId idfOne cexProjects cexOrgs "alpha" 2
    (okRows (find_coordinators sqrtId idfOne cexProjects cexOrgs "alpha" 2))
    (by decide)

/-- Counterexample to the claimed robustness for every non-empty corpus:
    this corpus is non-empty but its only text tokenizes to nothing, the
    vocabulary is empty and every query term is outside it, and the
    pipeline raises from fit_transform instead of returning top_n
    zero-score projects. -/
theorem oov_query_counterexample :
    noTermProjects.rows ≠ [] ∧
    (∀ t ∈ tokenize "climate", t ∉ vocabulary (corpusTokens noTermProjects)) ∧
    find_coordinators sqrtId idfOne noTermProjects cexOrgs "climate" 1 =
      .raised "empty vocabulary" := by decide

/-- Witness for oov_query_returns_zero_scores on a concrete run with the
    out-of-vocabulary query zzzz. -/
theorem oov_query_returns_zero_scores_witness :
    (topIndices 1 (pipelineSims sqrtId idfOne cexProjects "zzzz")).length =
      min (1:Int).toNat cexProjects.rows.length :=
  (oov_query_returns_zero_scores sqrtId idfOne cexProjects cexOrgs "zzzz" 1
    (Or.inl rfl) (by decide) rfl (by decide)).2.2 (by decide)

/-- Witness for combined_text_is_spaced_join on a concrete row. -/
theorem combined_text_is_spaced_join_witness :
    (cexProjects.hasTitle = true ∨ cexProjects.hasObjective = true ∨
      cexProjects.hasTopics = true) ∧
    combinedText cexProjects sampleRow =
      joinWithSpaces
        (((if cexProjects.hasTitle then [sampleRow.title] else []) ++
            (if cexProjects.hasObjective then [sampleRow.objective] else []) ++
              (if cexProjects.hasTopics then [sampleRow.topics] else [])).map
          fun c => c.getD "") :=
  ⟨Or.inl rfl, combined_text_is_spaced_join cexProjects sampleRow (Or.inl rfl)⟩

/-- Witness for topn_zero_selects_whole_corpus on a two-element score
    list. -/
theorem topn_zero_selects_whole_corpus_witness :
    (topIndices 0 [(5:ℚ), 7]).length = [(5:ℚ), 7].length ∧
    ∀ i, i < [(5:ℚ), 7].length → i ∈ topIndices 0 [(5:ℚ), 7] :=
  topn_zero_selects_whole_corpus [(5:ℚ), 7]

/-- Witness for missing_linkage_column_raises on a concrete run. -/
theorem missing_linkage_column_raises_witness :
    find_coordinators sqrtId idfOne cexProjects noLinkOrgs "alpha" 5 =
      .raised "projectID" :=
  missing_linkage_column_raises sqrtId idfOne cexProjects noLinkOrgs "alpha" 5
    (Or.inl rfl) (by decide) rfl (by decide) (by decide)

end

end CoordinatorFinder
